import Mathlib

/-!
Shallow embedding of the status-refresh/parse/update core of the
homebridge-switchbot device layer (src/device/device.ts, iosensor.ts,
motion.ts).  TypeScript numbers are modelled as rationals, fields the
code probes for presence as `Option`, and the per-device mutable records
(`this.Battery`, `this.HumiditySensor`, ...) as explicit state passed
through the parse functions.
-/

namespace SwitchBot

/-- TypeScript numeric values (homebridge CharacteristicValue numbers). -/
abbrev Num := ℚ

/-- hap.Characteristic.StatusLowBattery values:
BATTERY_LEVEL_NORMAL and BATTERY_LEVEL_LOW. -/
inductive LowBattery
  | normal
  | low
deriving DecidableEq, Repr

/-- SwitchBotBLEModel values from the node-switchbot enum, restricted to the
models this development needs plus a generic other constructor. -/
inductive BLEModel
  | OutdoorMeter
  | MotionSensor
  | Meter
  | other
deriving DecidableEq, Repr

/-- SwitchBotBLEModelName values from the node-switchbot enum. -/
inductive BLEModelName
  | OutdoorMeter
  | MotionSensor
  | Meter
  | other
deriving DecidableEq, Repr

/-- Per-device configuration fields consumed by the refresh core
(device and devicesConfig / indoorOutdoorSensorConfig in settings.ts).
Optional numeric settings are `Option Num`, mirroring `undefined`. -/
structure DeviceConfig where
  deviceId : String
  hubDeviceId : String
  connectionType : String
  enableCloudService : Bool
  offline : Bool
  webhook : Bool
  hide_humidity : Bool
  hide_temperature : Bool
  refreshRate : Option Num
  updateRate : Option Num
  pushRate : Option Num
  scanDuration : Option Num
  maxRetries : Option Num
  delayBetweenRetries : Option Num
  convertUnitTo : Option String
  mqttURL : Option String
  history : Bool
deriving DecidableEq, Repr

/-- Platform-level configuration fields consumed by the refresh core:
platform rate defaults and whether config.credentials.token is set. -/
structure PlatformConfig where
  platformRefreshRate : Option Num
  platformUpdateRate : Option Num
  platformPushRate : Option Num
  platformMaxRetries : Option Num
  platformDelayBetweenRetries : Option Num
  hasToken : Bool
deriving DecidableEq, Repr

namespace deviceBase

/-- this.BLE from the deviceBase constructor:
connectionType is BLE or BLE/OpenAPI. -/
def BLE (d : DeviceConfig) : Bool :=
  d.connectionType = "BLE" || d.connectionType = "BLE/OpenAPI"

/-- this.OpenAPI from the deviceBase constructor:
connectionType is OpenAPI or BLE/OpenAPI. -/
def OpenAPI (d : DeviceConfig) : Bool :=
  d.connectionType = "OpenAPI" || d.connectionType = "BLE/OpenAPI"

/-- Rates computed by deviceBase.getDeviceRateSettings. -/
structure RateSettings where
  deviceRefreshRate : Num
  deviceUpdateRate : Num
  devicePushRate : Num
  deviceMaxRetries : Num
  deviceDelayBetweenRetries : Num
  scanDuration : Num
deriving DecidableEq, Repr

/-- JavaScript truthiness of an optional number: undefined and 0 are falsy
(used where the source tests a numeric config with the ?: operator). -/
def truthyNum : Option Num → Bool
  | none => false
  | some v => v ≠ 0

/-- deviceBase.getDeviceRateSettings: device override, else platform
default, else hard default (300 / 5 / 0.1 / 2 / 3000); delayBetweenRetries
is scaled by 1000 when the device value is truthy; scanDuration is the max
of the configured value (default 1) and the update rate when that rate
exceeds 1. -/
def getDeviceRateSettings (p : PlatformConfig) (d : DeviceConfig) : RateSettings :=
  let deviceRefreshRate := d.refreshRate.getD (p.platformRefreshRate.getD 300)
  let deviceUpdateRate := d.updateRate.getD (p.platformUpdateRate.getD 5)
  let devicePushRate := d.pushRate.getD (p.platformPushRate.getD (1/10))
  let deviceMaxRetries := d.maxRetries.getD (p.platformMaxRetries.getD 2)
  let deviceDelayBetweenRetries :=
    if truthyNum d.delayBetweenRetries
      then d.delayBetweenRetries.getD 0 * 1000
      else p.platformDelayBetweenRetries.getD 3000
  let scanDuration :=
    max (d.scanDuration.getD 1) (if deviceUpdateRate > 1 then deviceUpdateRate else 1)
  { deviceRefreshRate := deviceRefreshRate
    deviceUpdateRate := deviceUpdateRate
    devicePushRate := devicePushRate
    deviceMaxRetries := deviceMaxRetries
    deviceDelayBetweenRetries := deviceDelayBetweenRetries
    scanDuration := scanDuration }

/-- Log channel chosen by deviceBase.statusCode for the final message. -/
inductive LogMethod
  | debugLog
  | errorLog
  | infoLog
deriving DecidableEq, Repr

/-- Status codes that have an entry in the statusMessages table of
deviceBase.statusCode. -/
def knownStatusCode (code : ℤ) : Bool :=
  code ∈ ([151, 152, 160, 161, 171, 190, 100, 200,
           400, 401, 403, 404, 406, 415, 422, 429, 500] : List ℤ)

/-- deviceBase.statusCode: the effective status code after the
self-hub remap (171 becomes 161 when hubDeviceId equals deviceId or the
all-zero placeholder) together with the log channel used for it. -/
def statusCode (d : DeviceConfig) (code : ℤ) : ℤ × LogMethod :=
  let code :=
    if code = 171 ∧ (d.hubDeviceId = d.deviceId ∨ d.hubDeviceId = "000000000000")
      then 161 else code
  let logMethod :=
    if code = 100 ∨ code = 200 then LogMethod.debugLog
    else if knownStatusCode code then LogMethod.errorLog
    else LogMethod.infoLog
  (code, logMethod)

/-- deviceBase.successfulStatusCodes: statusCode 200 or 100. -/
def successfulStatusCodes (statusCode : ℤ) : Bool :=
  statusCode = 200 || statusCode = 100

/-- Observable side effects of deviceBase.updateCharacteristic, in order
of execution. -/
inductive HostEvent
  | mqttPublish (name : String) (value : Num)
  | historyAdd
  | hostUpdate (name : String) (value : Num)
  | contextWrite (name : String) (value : Num)
  | debugLogged (name : String)
deriving DecidableEq, Repr

/-- accessory.context restricted to characteristic-name keys. -/
abbrev Context := List (String × Num)

/-- Assignment accessory.context[name] = value (replace or append). -/
def setContext (ctx : Context) (name : String) (value : Num) : Context :=
  match ctx with
  | [] => [(name, value)]
  | (k, v) :: rest =>
      if k = name then (k, value) :: rest else (k, v) :: setContext rest name value

/-- Lookup accessory.context[name]. -/
def getContext (ctx : Context) (name : String) : Option Num :=
  match ctx with
  | [] => none
  | (k, v) :: rest => if k = name then some v else getContext rest name

/-- deviceBase.updateCharacteristic: when the value is undefined it only
logs; otherwise it publishes to MQTT when configured, records history when
configured, pushes the value to the host service, and only then writes
accessory.context[CharacteristicName]. -/
def updateCharacteristic (d : DeviceConfig) (ctx : Context)
    (value : Option Num) (name : String) : List HostEvent × Context :=
  match value with
  | none => ([HostEvent.debugLogged name], ctx)
  | some v =>
      ((if d.mqttURL.isSome then [HostEvent.mqttPublish name v] else [])
        ++ (if d.history then [HostEvent.historyAdd] else [])
        ++ [HostEvent.hostUpdate name v, HostEvent.contextWrite name v],
       setContext ctx name v)

end deviceBase

/-- Modelled from the spec: validHumidity of src/utils.ts (not under src/)
clamps a well-typed humidity reading into the bounds it is given, per the
decoder contract that out-of-range values are clamped, never applied
verbatim (humidity above 100 becomes 100, below the minimum becomes the
minimum). -/
def validHumidity (humidity min max : Num) : Num :=
  if humidity < min then min else if humidity > max then max else humidity

/-- Modelled from the spec: convertUnits of src/utils.ts (not under src/)
performs the explicit table-driven temperature conversion between the
reported scale and the optional configured target unit; with no override
or matching units the value passes through unchanged. -/
def convertUnits (value : Num) (scale : String) (target : Option String) : Num :=
  match target with
  | none => value
  | some t =>
      if scale = t then value
      else if scale = "CELSIUS" ∧ t = "FAHRENHEIT" then value * 9 / 5 + 32
      else if scale = "FAHRENHEIT" ∧ t = "CELSIUS" then (value - 32) * 5 / 9
      else value

/-- State of the Battery service record of a sensor accessory. -/
structure BatteryState where
  BatteryLevel : Num
  StatusLowBattery : LowBattery
deriving DecidableEq, Repr

namespace IOSensor

/-- outdoorMeterServiceData: a BLE advertisement payload for the
indoor/outdoor sensor.  The battery key may be absent (the code probes it
with the in operator); humidity and celsius are read directly. -/
structure ServiceData where
  model : BLEModel
  modelName : BLEModelName
  battery : Option Num
  humidity : Num
  celsius : Num
deriving DecidableEq, Repr

/-- outdoorMeterStatus: the body of a successful cloud status response. -/
structure DeviceStatus where
  battery : Num
  temperature : Num
  humidity : Num
  version : Option String
deriving DecidableEq, Repr

/-- outdoorMeterWebhookContext: the payload of an inbound webhook event. -/
structure WebhookContext where
  scale : String
  temperature : Num
  humidity : Num
deriving DecidableEq, Repr

/-- Mutable characteristic state of an IOSensor accessory: the Battery
record always exists; the humidity and temperature sensor records exist
(carrying CurrentRelativeHumidity / CurrentTemperature) only when their
service was created. -/
structure State where
  Battery : BatteryState
  HumiditySensor : Option Num
  TemperatureSensor : Option Num
deriving DecidableEq, Repr

/-- IOSensor constructor state initialisation: battery defaults to
100 / NORMAL from context; the HumiditySensor record is created (default
CurrentRelativeHumidity 50) only when hide_humidity is not set, and the
TemperatureSensor record (default CurrentTemperature 30) only when
hide_temperature is not set. -/
def initState (d : DeviceConfig) (ctxBatteryLevel : Option Num)
    (ctxLow : Option LowBattery) (ctxHumidity ctxTemperature : Option Num) : State :=
  { Battery :=
      { BatteryLevel := ctxBatteryLevel.getD 100
        StatusLowBattery := ctxLow.getD LowBattery.normal }
    HumiditySensor :=
      if d.hide_humidity then none else some (ctxHumidity.getD 50)
    TemperatureSensor :=
      if d.hide_temperature then none else some (ctxTemperature.getD 30) }

/-- IOSensor.BLEparseStatus: battery fields update only when the payload
has a battery key (StatusLowBattery LOW exactly below 10); humidity is
stored through validHumidity(_, 0, 100) and celsius clamped into [0, 100],
each only when the capability is not hidden and its service exists. -/
def BLEparseStatus (d : DeviceConfig) (sd : ServiceData) (s : State) : State :=
  let s :=
    match sd.battery with
    | some b =>
        { s with Battery :=
            { BatteryLevel := b
              StatusLowBattery := if b < 10 then LowBattery.low else LowBattery.normal } }
    | none => s
  let s :=
    if ¬ d.hide_humidity ∧ s.HumiditySensor.isSome
      then { s with HumiditySensor := some (validHumidity sd.humidity 0 100) }
      else s
  let CELSIUS := if sd.celsius < 0 then 0 else if sd.celsius > 100 then 100 else sd.celsius
  let s :=
    if ¬ d.hide_temperature ∧ s.TemperatureSensor.isSome
      then { s with TemperatureSensor := some CELSIUS }
      else s
  s

/-- IOSensor.openAPIparseStatus: battery, humidity and temperature are
taken verbatim from the cloud body (no clamping); humidity and
temperature only when not hidden and the service exists. -/
def openAPIparseStatus (d : DeviceConfig) (ds : DeviceStatus) (s : State) : State :=
  let s :=
    { s with Battery :=
        { BatteryLevel := ds.battery
          StatusLowBattery :=
            if ds.battery < 10 then LowBattery.low else LowBattery.normal } }
  let s :=
    if ¬ d.hide_humidity ∧ s.HumiditySensor.isSome
      then { s with HumiditySensor := some ds.humidity }
      else s
  let s :=
    if ¬ d.hide_temperature ∧ s.TemperatureSensor.isSome
      then { s with TemperatureSensor := some ds.temperature }
      else s
  s

/-- IOSensor.parseStatusWebhook: as written in the source the humidity
and temperature branches are guarded by the hide flag itself (not its
negation, unlike the BLE and OpenAPI parsers): humidity updates require
hide_humidity AND an existing HumiditySensor service, temperature updates
require hide_temperature AND an existing TemperatureSensor service, the
temperature going through convertUnits. -/
def parseStatusWebhook (d : DeviceConfig) (wc : WebhookContext) (s : State) : State :=
  let s :=
    if d.hide_humidity ∧ s.HumiditySensor.isSome
      then { s with HumiditySensor := some wc.humidity }
      else s
  let converted := convertUnits wc.temperature wc.scale d.convertUnitTo
  let s :=
    if d.hide_temperature ∧ s.TemperatureSensor.isSome
      then { s with TemperatureSensor := some converted }
      else s
  s

/-- hap numeric encoding of StatusLowBattery:
BATTERY_LEVEL_NORMAL is 0, BATTERY_LEVEL_LOW is 1. -/
def lowBatteryValue : LowBattery → Num
  | LowBattery.normal => 0
  | LowBattery.low => 1

/-- IOSensor.updateHomeKitCharacteristics: pushes
CurrentRelativeHumidity (when not hidden and the service exists), then
CurrentTemperature (same), then BatteryLevel and StatusLowBattery,
each through deviceBase.updateCharacteristic. -/
def updateHomeKitCharacteristics (d : DeviceConfig) (s : State)
    (ctx : deviceBase.Context) : List deviceBase.HostEvent × deviceBase.Context :=
  let step1 :=
    if ¬ d.hide_humidity ∧ s.HumiditySensor.isSome
      then deviceBase.updateCharacteristic d ctx s.HumiditySensor "CurrentRelativeHumidity"
      else ([], ctx)
  let step2 :=
    if ¬ d.hide_temperature ∧ s.TemperatureSensor.isSome
      then deviceBase.updateCharacteristic d step1.2 s.TemperatureSensor "CurrentTemperature"
      else ([], step1.2)
  let step3 :=
    deviceBase.updateCharacteristic d step2.2 (some s.Battery.BatteryLevel) "BatteryLevel"
  let step4 :=
    deviceBase.updateCharacteristic d step3.2
      (some (lowBatteryValue s.Battery.StatusLowBattery)) "StatusLowBattery"
  (step1.1 ++ step2.1 ++ step3.1 ++ step4.1, step4.2)

/-- Transport actually contacted during one refresh cycle. -/
inductive TransportAttempt
  | radio
  | cloud
deriving DecidableEq, Repr

/-- Branch taken by IOSensor.refreshStatus for one cycle. -/
inductive RefreshAction
  | cloudServiceError
  | bleRefresh
  | openAPIRefresh
  | offlineFallback
deriving DecidableEq, Repr

/-- IOSensor.refreshStatus branch selection: error when the cloud
connection is configured without enableCloudService, else the BLE path
when BLE is in the connection type, else the OpenAPI path when it is
configured and a token credential exists, else offlineOff and no
transport. -/
def refreshStatusAction (p : PlatformConfig) (d : DeviceConfig) : RefreshAction :=
  if ¬ d.enableCloudService ∧ deviceBase.OpenAPI d then RefreshAction.cloudServiceError
  else if deviceBase.BLE d then RefreshAction.bleRefresh
  else if deviceBase.OpenAPI d ∧ p.hasToken then RefreshAction.openAPIRefresh
  else RefreshAction.offlineFallback

/-- IOSensor.offlineOff: for a device marked offline, push 50 to the
humidity characteristic (when not hidden and the service exists) and 30
to the temperature characteristic (when not hidden and the service
exists); otherwise push nothing. -/
def offlineOff (d : DeviceConfig) (s : State) : List (String × Num) :=
  if d.offline then
    (if ¬ d.hide_humidity ∧ s.HumiditySensor.isSome
        then [("CurrentRelativeHumidity", (50 : Num))] else [])
      ++ (if ¬ d.hide_temperature ∧ s.TemperatureSensor.isSome
        then [("CurrentTemperature", (30 : Num))] else [])
  else []

/-- Cloud status response as consumed by IOSensor.openAPIRefreshStatus:
response.body carries its own statusCode and device-status body. -/
structure CloudStatusResponse where
  statusCode : ℤ
  body : DeviceStatus
deriving DecidableEq, Repr

/-- Result of one transport refresh: the resulting characteristic state,
the host events emitted, and the resulting accessory context. -/
structure RefreshOutcome where
  state : State
  events : List deviceBase.HostEvent
  context : deviceBase.Context
deriving DecidableEq, Repr

/-- IOSensor.openAPIRefreshStatus: a network failure (no response) is
caught, apiError pushes the error and it is logged, with no state or
context write; a response parses and publishes exactly when
successfulStatusCodes accepts its statusCode, otherwise it is only
logged and state, characteristics and context stay untouched. -/
def openAPIRefreshStatus (d : DeviceConfig) (resp : Option CloudStatusResponse)
    (s : State) (ctx : deviceBase.Context) : RefreshOutcome :=
  match resp with
  | none => { state := s, events := [], context := ctx }
  | some r =>
      if deviceBase.successfulStatusCodes r.statusCode
        then
          let s := openAPIparseStatus d r.body s
          let u := updateHomeKitCharacteristics d s ctx
          { state := s, events := u.1, context := u.2 }
        else { state := s, events := [], context := ctx }

/-- IOSensor.BLERefreshConnection: after a failed radio attempt, exactly
one cloud attempt is made when a token credential exists and the
connection type is BLE/OpenAPI; otherwise the cycle ends. -/
def BLERefreshConnection (p : PlatformConfig) (d : DeviceConfig)
    (resp : Option CloudStatusResponse) (s : State) (ctx : deviceBase.Context) :
    List TransportAttempt × RefreshOutcome :=
  if p.hasToken ∧ d.connectionType = "BLE/OpenAPI"
    then ([TransportAttempt.cloud], openAPIRefreshStatus d resp s ctx)
    else ([], { state := s, events := [], context := ctx })

/-- IOSensor.BLERefreshStatus with an established BLE stack: one radio
advertisement-monitor attempt produces sd; when its model and modelName
are both OutdoorMeter the payload is parsed and published, otherwise the
payload is dropped (no field of it is stored) and BLERefreshConnection
runs the cloud fallback. -/
def BLERefreshStatus (p : PlatformConfig) (d : DeviceConfig) (sd : ServiceData)
    (resp : Option CloudStatusResponse) (s : State) (ctx : deviceBase.Context) :
    List TransportAttempt × RefreshOutcome :=
  if sd.model = BLEModel.OutdoorMeter ∧ sd.modelName = BLEModelName.OutdoorMeter
    then
      let s := BLEparseStatus d sd s
      let u := updateHomeKitCharacteristics d s ctx
      ([TransportAttempt.radio], { state := s, events := u.1, context := u.2 })
    else
      let fallback := BLERefreshConnection p d resp s ctx
      (TransportAttempt.radio :: fallback.1, fallback.2)

/-- Scheduler-visible state of one IOSensor: the busy flag, the internal
state of the rxjs skipWhile operator (which stops skipping forever once
its predicate has returned false), and the number of refresh cycles
currently in flight. -/
structure SchedulerState where
  ioSensorUpdateInProgress : Bool
  skipWhileDone : Bool
  activeRefreshes : ℕ
deriving DecidableEq, Repr

/-- IOSensor constructor scheduler effects: ioSensorUpdateInProgress is
set to false, and iosensor.ts contains no other assignment to it; the
interval pipeline has not emitted yet. -/
def constructorScheduler : SchedulerState :=
  { ioSensorUpdateInProgress := false, skipWhileDone := false, activeRefreshes := 0 }

/-- One emission of interval(deviceRefreshRate * 1000) through
skipWhile of the busy flag: the subscription fires (starting
refreshStatus, one more cycle in flight) unless the operator is still in
its skipping phase and the flag is true; once the predicate has returned
false the operator passes every later emission through. -/
def intervalTick (s : SchedulerState) : SchedulerState :=
  if s.skipWhileDone ∨ ¬ s.ioSensorUpdateInProgress
    then { s with skipWhileDone := true, activeRefreshes := s.activeRefreshes + 1 }
    else s

/-- Completion of a refreshStatus cycle: refreshStatus and everything it
calls never assign ioSensorUpdateInProgress (the constructor holds the
only assignment in iosensor.ts), so completion only ends the cycle. -/
def refreshCompletes (s : SchedulerState) : SchedulerState :=
  { s with activeRefreshes := s.activeRefreshes - 1 }

/-- registerWebhook handler: an inbound webhook event runs
parseStatusWebhook and then updateHomeKitCharacteristics on the stored
state. -/
def webhookHandlerState (d : DeviceConfig) (wc : WebhookContext) (s : State) : State :=
  parseStatusWebhook d wc s

end IOSensor

namespace Motion

/-- motionConfig fields consumed by Motion.BLEparseStatus. -/
structure Config where
  hide_lightsensor : Bool
  set_minLux : Option Num
  set_maxLux : Option Num
deriving DecidableEq, Repr

/-- motionSensorServiceData: a BLE advertisement payload for the motion
sensor; the battery key may be absent. -/
structure ServiceData where
  model : BLEModel
  modelName : BLEModelName
  movement : Bool
  lightLevel : String
  battery : Option Num
deriving DecidableEq, Repr

/-- Mutable characteristic state of a Motion accessory. -/
structure State where
  MotionDetected : Bool
  LightSensor : Option Num
  Battery : BatteryState
deriving DecidableEq, Repr

/-- deviceBase.getLightLevel: minimum lux at level 1, maximum at the top
level, linear interpolation in between. -/
def getLightLevel (lightLevel set_minLux set_maxLux spaceBetweenLevels : Num) : Num :=
  let numberOfLevels := spaceBetweenLevels + 1
  if lightLevel = 1 then set_minLux
  else if lightLevel = numberOfLevels then set_maxLux
  else (set_maxLux - set_minLux) / spaceBetweenLevels * (lightLevel - 1)

/-- Motion.BLEparseStatus: movement always updates MotionDetected; the
light level updates when not hidden and the service exists; the battery
fields update only when the payload has a battery key, with
StatusLowBattery LOW exactly below 10. -/
def BLEparseStatus (c : Config) (sd : ServiceData) (s : State) : State :=
  let s := { s with MotionDetected := sd.movement }
  let s :=
    if ¬ c.hide_lightsensor ∧ s.LightSensor.isSome
      then
        let set_minLux := c.set_minLux.getD 1
        let set_maxLux := c.set_maxLux.getD 6001
        let lightLevel := if sd.lightLevel = "bright" then set_maxLux else set_minLux
        { s with LightSensor := some (getLightLevel lightLevel set_minLux set_maxLux 2) }
      else s
  match sd.battery with
  | some b =>
      { s with Battery :=
          { BatteryLevel := b
            StatusLowBattery := if b < 10 then LowBattery.low else LowBattery.normal } }
  | none => s

end Motion

/-- Sample indoor/outdoor sensor configuration for concrete evaluations:
BLE/OpenAPI connection, cloud service enabled, nothing hidden. -/
def sampleDevice : DeviceConfig :=
  { deviceId := "C271111EC0AB"
    hubDeviceId := "D81B22496E12"
    connectionType := "BLE/OpenAPI"
    enableCloudService := true
    offline := false
    webhook := true
    hide_humidity := false
    hide_temperature := false
    refreshRate := none
    updateRate := none
    pushRate := none
    scanDuration := none
    maxRetries := none
    delayBetweenRetries := none
    convertUnitTo := none
    mqttURL := none
    history := false }

/-- Sample platform configuration with a stored token credential. -/
def samplePlatform : PlatformConfig :=
  { platformRefreshRate := none
    platformUpdateRate := none
    platformPushRate := none
    platformMaxRetries := none
    platformDelayBetweenRetries := none
    hasToken := true }

/-- Sample IOSensor characteristic state with both sensor services. -/
def sampleState : IOSensor.State :=
  { Battery := { BatteryLevel := 100, StatusLowBattery := LowBattery.normal }
    HumiditySensor := some 40
    TemperatureSensor := some 20 }

/-- Sample device with no usable transport, marked offline. -/
def offlineDevice : DeviceConfig :=
  { sampleDevice with connectionType := "", offline := true }

/-- Sample device whose hub id is the all-zero placeholder. -/
def selfHubDevice : DeviceConfig :=
  { sampleDevice with hubDeviceId := "000000000000" }

/-- Sample device hiding both the humidity and temperature capability. -/
def hiddenDevice : DeviceConfig :=
  { sampleDevice with hide_humidity := true, hide_temperature := true }

/-- Sample BLE payload whose model is not the outdoor meter. -/
def mismatchServiceData : IOSensor.ServiceData :=
  { model := BLEModel.Meter, modelName := BLEModelName.Meter,
    battery := some 70, humidity := 44, celsius := 19 }

/-- Sample cloud response reporting the device offline (code 161). -/
def offlineResponse : IOSensor.CloudStatusResponse :=
  { statusCode := 161
    body := { battery := 70, temperature := 19, humidity := 44, version := none } }

/-- Writing a context key and reading it back yields the written value. -/
theorem getContext_setContext (ctx : deviceBase.Context) (name : String) (v : Num) :
    deviceBase.getContext (deviceBase.setContext ctx name v) name = some v := by
  induction ctx with
  | nil => simp [deviceBase.setContext, deviceBase.getContext]
  | cons kv rest ih =>
      obtain ⟨k, w⟩ := kv
      by_cases h : k = name
      · simp [deviceBase.setContext, deviceBase.getContext, h]
      · simp [deviceBase.setContext, deviceBase.getContext, h, ih]

end SwitchBot

open SwitchBot

/-- C1: counterexample — the OpenAPI decoder of the indoor/outdoor sensor
does not clamp: a cloud body with humidity 150 is stored verbatim as the
CurrentRelativeHumidity, which lies outside [0, 100], refuting the claim
that all three transports clamp out-of-range humidity. -/
theorem C1_counterexample_openAPI_no_clamp :
    (IOSensor.openAPIparseStatus sampleDevice
        { battery := 80, temperature := 22, humidity := 150, version := none }
        sampleState).HumiditySensor = some 150
    ∧ ¬ ((150 : ℚ) ≤ 100) := by
  refine ⟨by decide, by norm_num⟩

/-- C1 (amended): only the BLE decoder clamps — BLEparseStatus stores a
humidity in [0, 100] and a temperature in [0, 100] (hence within
[-273.15, 100]) for every payload, while openAPIparseStatus stores the
well-typed cloud humidity and temperature verbatim, without clamping. -/
theorem C1_amended_clamping (d : DeviceConfig) (sd : IOSensor.ServiceData)
    (ds : IOSensor.DeviceStatus) (s : IOSensor.State)
    (hh : d.hide_humidity = false) (hhs : s.HumiditySensor.isSome = true)
    (ht : d.hide_temperature = false) (hts : s.TemperatureSensor.isSome = true) :
    ((∃ h, (IOSensor.BLEparseStatus d sd s).HumiditySensor = some h ∧ 0 ≤ h ∧ h ≤ 100)
      ∧ (∃ t, (IOSensor.BLEparseStatus d sd s).TemperatureSensor = some t
          ∧ -(5463 / 20 : ℚ) ≤ t ∧ t ≤ 100))
    ∧ (IOSensor.openAPIparseStatus d ds s).HumiditySensor = some ds.humidity
    ∧ (IOSensor.openAPIparseStatus d ds s).TemperatureSensor = some ds.temperature := by
  have hble :
      (IOSensor.BLEparseStatus d sd s).HumiditySensor
          = some (validHumidity sd.humidity 0 100)
        ∧ (IOSensor.BLEparseStatus d sd s).TemperatureSensor
          = some (if sd.celsius < 0 then 0 else if sd.celsius > 100 then 100 else sd.celsius) := by
    cases hb : sd.battery with
    | none => simp [IOSensor.BLEparseStatus, hb, hh, ht, hhs, hts]
    | some b => simp [IOSensor.BLEparseStatus, hb, hh, ht, hhs, hts]
  refine ⟨⟨⟨validHumidity sd.humidity 0 100, hble.1, ?_, ?_⟩, ?_⟩, ?_, ?_⟩
  · unfold validHumidity
    split_ifs with h1 h2 <;> linarith
  · unfold validHumidity
    split_ifs with h1 h2 <;> linarith
  · refine ⟨_, hble.2, ?_, ?_⟩
    · split_ifs with h1 h2
      · norm_num
      · norm_num
      · linarith
    · split_ifs with h1 h2 <;> linarith
  · simp [IOSensor.openAPIparseStatus, hh, ht, hhs, hts]
  · simp [IOSensor.openAPIparseStatus, hh, ht, hhs, hts]

/-- C1 (witness): the amended clamping theorem evaluated on a concrete
out-of-range BLE payload (humidity 150, celsius -5) and cloud body. -/
theorem C1_amended_clamping_witness :
    ((∃ h, (IOSensor.BLEparseStatus sampleDevice
          { model := BLEModel.OutdoorMeter, modelName := BLEModelName.OutdoorMeter,
            battery := some 80, humidity := 150, celsius := -5 }
          sampleState).HumiditySensor = some h ∧ 0 ≤ h ∧ h ≤ 100)
      ∧ (∃ t, (IOSensor.BLEparseStatus sampleDevice
          { model := BLEModel.OutdoorMeter, modelName := BLEModelName.OutdoorMeter,
            battery := some 80, humidity := 150, celsius := -5 }
          sampleState).TemperatureSensor = some t ∧ -(5463 / 20 : ℚ) ≤ t ∧ t ≤ 100))
    ∧ (IOSensor.openAPIparseStatus sampleDevice
        { battery := 80, temperature := 22, humidity := 66, version := none }
        sampleState).HumiditySensor = some (66 : ℚ)
    ∧ (IOSensor.openAPIparseStatus sampleDevice
        { battery := 80, temperature := 22, humidity := 66, version := none }
        sampleState).TemperatureSensor = some (22 : ℚ) :=
  C1_amended_clamping sampleDevice
    { model := BLEModel.OutdoorMeter, modelName := BLEModelName.OutdoorMeter,
      battery := some 80, humidity := 150, celsius := -5 }
    { battery := 80, temperature := 22, humidity := 66, version := none }
    sampleState rfl rfl rfl rfl

/-- C2: the in-progress flag is assigned only once, to false, in the
IOSensor constructor; the rxjs skipWhile operator stops filtering after
its predicate first returns false; hence a second interval tick that
arrives while the first refresh cycle is still in flight is not skipped
and two refresh cycles run concurrently with the flag still false —
refuting the claim that the flag is true whenever a cycle is in flight
and that such a tick is skipped. -/
theorem C2_second_tick_not_skipped :
    IOSensor.intervalTick (IOSensor.intervalTick IOSensor.constructorScheduler)
      = { ioSensorUpdateInProgress := false, skipWhileDone := true, activeRefreshes := 2 } := by
  decide

/-- C3: IOSensor.refreshStatus evaluates its transport policy in order —
cloud configured without enableCloudService reports an error and contacts
nothing; else a BLE connection type goes to the radio path; else an
OpenAPI connection type with a token credential goes to the cloud path;
else the cycle falls back to offlineOff, which for a device marked
offline pushes the fixed neutral 50 percent humidity and 30 degrees. -/
theorem C3_transport_selection (p : PlatformConfig) (d : DeviceConfig) (s : IOSensor.State)
    (hhum : d.hide_humidity = false) (htemp : d.hide_temperature = false)
    (hhs : s.HumiditySensor.isSome = true) (hts : s.TemperatureSensor.isSome = true) :
    (d.enableCloudService = false → deviceBase.OpenAPI d = true →
      IOSensor.refreshStatusAction p d = IOSensor.RefreshAction.cloudServiceError)
    ∧ (¬ (d.enableCloudService = false ∧ deviceBase.OpenAPI d = true) →
        deviceBase.BLE d = true →
        IOSensor.refreshStatusAction p d = IOSensor.RefreshAction.bleRefresh)
    ∧ (¬ (d.enableCloudService = false ∧ deviceBase.OpenAPI d = true) →
        deviceBase.BLE d = false →
        deviceBase.OpenAPI d = true → p.hasToken = true →
        IOSensor.refreshStatusAction p d = IOSensor.RefreshAction.openAPIRefresh)
    ∧ (¬ (d.enableCloudService = false ∧ deviceBase.OpenAPI d = true) →
        deviceBase.BLE d = false →
        ¬ (deviceBase.OpenAPI d = true ∧ p.hasToken = true) →
        IOSensor.refreshStatusAction p d = IOSensor.RefreshAction.offlineFallback
        ∧ (d.offline = true →
            IOSensor.offlineOff d s
              = [("CurrentRelativeHumidity", (50 : ℚ)), ("CurrentTemperature", (30 : ℚ))])) := by
  refine ⟨?_, ?_, ?_, ?_⟩
  · intro h1 h2
    simp [IOSensor.refreshStatusAction, h1, h2]
  · intro h1 h2
    cases he : d.enableCloudService with
    | true => simp [IOSensor.refreshStatusAction, he, h2]
    | false =>
        cases ho : deviceBase.OpenAPI d with
        | true => exact absurd ⟨he, ho⟩ h1
        | false => simp [IOSensor.refreshStatusAction, he, ho, h2]
  · intro h1 h2 h3 h4
    cases he : d.enableCloudService with
    | false => exact absurd ⟨he, h3⟩ h1
    | true => simp [IOSensor.refreshStatusAction, he, h2, h3, h4]
  · intro h1 h2 h3
    constructor
    · cases ho : deviceBase.OpenAPI d with
      | false => simp [IOSensor.refreshStatusAction, ho, h2]
      | true =>
          cases he : d.enableCloudService with
          | false => exact absurd ⟨he, ho⟩ h1
          | true =>
              cases htk : p.hasToken with
              | true => exact absurd ⟨ho, htk⟩ h3
              | false => simp [IOSensor.refreshStatusAction, he, ho, h2, htk]
    · intro hoff
      simp [IOSensor.offlineOff, hoff, hhum, htemp, hhs, hts]

/-- C3 (witness): a device with an empty connection type and no other
transport, marked offline, takes the offline fallback and pushes the
neutral 50 percent humidity and 30 degrees. -/
theorem C3_transport_selection_witness :
    offlineDevice.hide_humidity = false ∧ offlineDevice.hide_temperature = false
    ∧ sampleState.HumiditySensor.isSome = true ∧ sampleState.TemperatureSensor.isSome = true
    ∧ IOSensor.refreshStatusAction samplePlatform offlineDevice
        = IOSensor.RefreshAction.offlineFallback
    ∧ IOSensor.offlineOff offlineDevice sampleState
        = [("CurrentRelativeHumidity", (50 : ℚ)), ("CurrentTemperature", (30 : ℚ))] := by
  have h := (C3_transport_selection samplePlatform offlineDevice sampleState
      rfl rfl rfl rfl).2.2.2 (by decide) (by decide) (by decide)
  exact ⟨rfl, rfl, rfl, rfl, h.1, h.2 rfl⟩

/-- C4: in a BLE refresh cycle with an established radio stack, a scanned
payload whose model or modelName is not the outdoor meter is dropped
without storing any of its fields, and with a token credential and a
BLE/OpenAPI connection type exactly one cloud fallback attempt follows in
the same cycle — the attempt list is radio then cloud, with no second
radio attempt — and when that cloud attempt also fails the state, events
and context of the cycle are exactly the initial ones. -/
theorem C4_model_mismatch_single_cloud_fallback (p : PlatformConfig) (d : DeviceConfig)
    (sd : IOSensor.ServiceData) (resp : Option IOSensor.CloudStatusResponse)
    (s : IOSensor.State) (ctx : deviceBase.Context)
    (hm : ¬ (sd.model = BLEModel.OutdoorMeter ∧ sd.modelName = BLEModelName.OutdoorMeter))
    (htok : p.hasToken = true) (hconn : d.connectionType = "BLE/OpenAPI") :
    (IOSensor.BLERefreshStatus p d sd resp s ctx).1
        = [IOSensor.TransportAttempt.radio, IOSensor.TransportAttempt.cloud]
    ∧ (IOSensor.BLERefreshStatus p d sd resp s ctx).2
        = IOSensor.openAPIRefreshStatus d resp s ctx
    ∧ (∀ r, resp = some r → deviceBase.successfulStatusCodes r.statusCode = false →
        (IOSensor.BLERefreshStatus p d sd resp s ctx).2
          = { state := s, events := [], context := ctx })
    ∧ (resp = none →
        (IOSensor.BLERefreshStatus p d sd resp s ctx).2
          = { state := s, events := [], context := ctx }) := by
  refine ⟨?_, ?_, ?_, ?_⟩
  · simp [IOSensor.BLERefreshStatus, IOSensor.BLERefreshConnection, hm, htok, hconn]
  · simp [IOSensor.BLERefreshStatus, IOSensor.BLERefreshConnection, hm, htok, hconn]
  · intro r hr hfail
    subst hr
    simp [IOSensor.BLERefreshStatus, IOSensor.BLERefreshConnection,
      IOSensor.openAPIRefreshStatus, hm, htok, hconn, hfail]
  · intro hr
    subst hr
    simp [IOSensor.BLERefreshStatus, IOSensor.BLERefreshConnection,
      IOSensor.openAPIRefreshStatus, hm, htok, hconn]

/-- C4 (witness): a meter-model payload on the outdoor sensor with a
token and BLE/OpenAPI connection yields exactly the attempts radio then
cloud, and with the cloud replying 161 the cycle changes nothing. -/
theorem C4_model_mismatch_single_cloud_fallback_witness :
    ¬ (mismatchServiceData.model = BLEModel.OutdoorMeter
        ∧ mismatchServiceData.modelName = BLEModelName.OutdoorMeter)
    ∧ (IOSensor.BLERefreshStatus samplePlatform sampleDevice mismatchServiceData
        (some offlineResponse) sampleState []).1
        = [IOSensor.TransportAttempt.radio, IOSensor.TransportAttempt.cloud]
    ∧ (IOSensor.BLERefreshStatus samplePlatform sampleDevice mismatchServiceData
        (some offlineResponse) sampleState []).2
        = { state := sampleState, events := [], context := [] } := by
  have h := C4_model_mismatch_single_cloud_fallback samplePlatform sampleDevice
    mismatchServiceData (some offlineResponse) sampleState [] (by decide) rfl rfl
  exact ⟨by decide, h.1, h.2.2.1 offlineResponse rfl (by decide)⟩

/-- C5: deviceBase.statusCode remaps 171 to 161 exactly when the
device's hubDeviceId equals its own deviceId or the all-zero placeholder
000000000000, and leaves every other status code unchanged. -/
theorem C5_statusCode_remap (d : DeviceConfig) (code : ℤ) :
    (code = 171 → (d.hubDeviceId = d.deviceId ∨ d.hubDeviceId = "000000000000") →
      (deviceBase.statusCode d code).1 = 161)
    ∧ (code = 171 → ¬ (d.hubDeviceId = d.deviceId ∨ d.hubDeviceId = "000000000000") →
      (deviceBase.statusCode d code).1 = 171)
    ∧ (code ≠ 171 → (deviceBase.statusCode d code).1 = code) := by
  refine ⟨?_, ?_, ?_⟩
  · intro h1 h2
    simp [deviceBase.statusCode, h1, h2]
  · intro h1 h2
    simp [deviceBase.statusCode, h1, h2]
  · intro h1
    simp [deviceBase.statusCode, h1]

/-- C5 (witness): code 171 on a device whose hub id is the placeholder
remaps to 161, and code 190 passes through unchanged. -/
theorem C5_statusCode_remap_witness :
    ((171 : ℤ) = 171 ∧ (selfHubDevice.hubDeviceId = selfHubDevice.deviceId
        ∨ selfHubDevice.hubDeviceId = "000000000000"))
    ∧ (deviceBase.statusCode selfHubDevice 171).1 = 161
    ∧ (deviceBase.statusCode sampleDevice 190).1 = 190 :=
  ⟨⟨rfl, Or.inr rfl⟩,
    (C5_statusCode_remap selfHubDevice 171).1 rfl (Or.inr rfl),
    (C5_statusCode_remap sampleDevice 190).2.2 (by decide)⟩

/-- C6: a cloud status fetch is successful exactly for statusCode 100 or
200, and on any non-success code openAPIRefreshStatus performs no parse
and no publish: the stored state, the emitted host events and the
published-state context are exactly the initial ones. -/
theorem C6_success_codes_and_no_mutation (d : DeviceConfig) (code : ℤ)
    (r : IOSensor.CloudStatusResponse) (s : IOSensor.State) (ctx : deviceBase.Context) :
    (deviceBase.successfulStatusCodes code = true ↔ code = 100 ∨ code = 200)
    ∧ (deviceBase.successfulStatusCodes r.statusCode = false →
        IOSensor.openAPIRefreshStatus d (some r) s ctx
          = { state := s, events := [], context := ctx }) := by
  constructor
  · constructor
    · intro h
      rcases Bool.or_eq_true _ _ |>.mp h with h | h
      · exact Or.inr (by exact_mod_cast decide_eq_true_eq.mp h)
      · exact Or.inl (by exact_mod_cast decide_eq_true_eq.mp h)
    · intro h
      rcases h with h | h <;> simp [deviceBase.successfulStatusCodes, h]
  · intro hfail
    simp [IOSensor.openAPIRefreshStatus, hfail]

/-- C6 (witness): statusCode 161 is not successful and the cloud refresh
with a 161 response leaves state, events and context untouched. -/
theorem C6_success_codes_and_no_mutation_witness :
    deviceBase.successfulStatusCodes offlineResponse.statusCode = false
    ∧ IOSensor.openAPIRefreshStatus sampleDevice (some offlineResponse) sampleState []
        = { state := sampleState, events := [], context := [] } :=
  ⟨by decide,
    (C6_success_codes_and_no_mutation sampleDevice 161 offlineResponse sampleState []).2
      (by decide)⟩

/-- C7: deviceBase.updateCharacteristic skips an undefined value, leaving
the context untouched and pushing nothing to the host; for a defined
value the context key is set to exactly the pushed value, and the context
write is the last event, strictly after the host update of that same
value — so the published state never records a value the host was not
told about. -/
theorem C7_published_state_integrity (d : DeviceConfig) (ctx : deviceBase.Context)
    (v : Option ℚ) (name : String) :
    (v = none → deviceBase.updateCharacteristic d ctx v name
        = ([deviceBase.HostEvent.debugLogged name], ctx))
    ∧ (∀ x, v = some x →
        deviceBase.getContext (deviceBase.updateCharacteristic d ctx v name).2 name = some x
        ∧ ∃ es, (deviceBase.updateCharacteristic d ctx v name).1
            = es ++ [deviceBase.HostEvent.hostUpdate name x,
                     deviceBase.HostEvent.contextWrite name x]) := by
  constructor
  · intro h
    subst h
    rfl
  · intro x h
    subst h
    constructor
    · exact getContext_setContext ctx name x
    · refine ⟨(if d.mqttURL.isSome then [deviceBase.HostEvent.mqttPublish name x] else [])
        ++ (if d.history then [deviceBase.HostEvent.historyAdd] else []), ?_⟩
      simp [deviceBase.updateCharacteristic]

/-- C7 (witness): pushing CurrentTemperature 22 onto an empty context
records it as the last event after the host update, and reading the
context back yields 22; an undefined value leaves the context empty. -/
theorem C7_published_state_integrity_witness :
    (deviceBase.updateCharacteristic sampleDevice [] none "BatteryLevel"
        = ([deviceBase.HostEvent.debugLogged "BatteryLevel"], []))
    ∧ deviceBase.getContext
        (deviceBase.updateCharacteristic sampleDevice [] (some 22) "CurrentTemperature").2
        "CurrentTemperature" = some 22
    ∧ ∃ es, (deviceBase.updateCharacteristic sampleDevice [] (some 22) "CurrentTemperature").1
        = es ++ [deviceBase.HostEvent.hostUpdate "CurrentTemperature" 22,
                 deviceBase.HostEvent.contextWrite "CurrentTemperature" 22] := by
  refine ⟨(C7_published_state_integrity sampleDevice [] none "BatteryLevel").1 rfl, ?_, ?_⟩
  · exact ((C7_published_state_integrity sampleDevice [] (some 22) "CurrentTemperature").2
      22 rfl).1
  · exact ((C7_published_state_integrity sampleDevice [] (some 22) "CurrentTemperature").2
      22 rfl).2

/-- C8: both BLE decoders update the battery capability exactly when the
payload carries a battery field — the level is set to that value and the
low-battery flag is LOW precisely below 10 — and a payload without the
field leaves both battery values exactly as they were. -/
theorem C8_battery_frame_effect (d : DeviceConfig) (c : Motion.Config)
    (sd : IOSensor.ServiceData) (msd : Motion.ServiceData)
    (s : IOSensor.State) (ms : Motion.State) :
    (sd.battery = none → (IOSensor.BLEparseStatus d sd s).Battery = s.Battery)
    ∧ (∀ b, sd.battery = some b →
        (IOSensor.BLEparseStatus d sd s).Battery.BatteryLevel = b
        ∧ ((IOSensor.BLEparseStatus d sd s).Battery.StatusLowBattery = LowBattery.low
            ↔ b < 10))
    ∧ (msd.battery = none → (Motion.BLEparseStatus c msd ms).Battery = ms.Battery)
    ∧ (∀ b, msd.battery = some b →
        (Motion.BLEparseStatus c msd ms).Battery.BatteryLevel = b
        ∧ ((Motion.BLEparseStatus c msd ms).Battery.StatusLowBattery = LowBattery.low
            ↔ b < 10)) := by
  refine ⟨?_, ?_, ?_, ?_⟩
  · intro h
    simp only [IOSensor.BLEparseStatus, h]
    split_ifs <;> rfl
  · intro b h
    have hb : (IOSensor.BLEparseStatus d sd s).Battery
        = { BatteryLevel := b
            StatusLowBattery := if b < 10 then LowBattery.low else LowBattery.normal } := by
      simp only [IOSensor.BLEparseStatus, h]
      split_ifs <;> rfl
    rw [hb]
    refine ⟨rfl, ?_⟩
    constructor
    · intro hlow
      by_contra hge
      simp [if_neg hge] at hlow
    · intro hlt
      simp [if_pos hlt]
  · intro h
    simp only [Motion.BLEparseStatus, h]
    split_ifs <;> rfl
  · intro b h
    have hb : (Motion.BLEparseStatus c msd ms).Battery
        = { BatteryLevel := b
            StatusLowBattery := if b < 10 then LowBattery.low else LowBattery.normal } := by
      simp only [Motion.BLEparseStatus, h]
    rw [hb]
    refine ⟨rfl, ?_⟩
    constructor
    · intro hlow
      by_contra hge
      simp [if_neg hge] at hlow
    · intro hlt
      simp [if_pos hlt]

/-- C8 (witness): battery 5 on the outdoor meter yields level 5 and LOW,
battery 45 on the motion sensor yields level 45 and not LOW, and a
payload without a battery key leaves the battery state untouched. -/
theorem C8_battery_frame_effect_witness :
    ((IOSensor.BLEparseStatus sampleDevice
        { model := BLEModel.OutdoorMeter, modelName := BLEModelName.OutdoorMeter,
          battery := some 5, humidity := 44, celsius := 19 } sampleState).Battery.BatteryLevel
        = 5
      ∧ (IOSensor.BLEparseStatus sampleDevice
        { model := BLEModel.OutdoorMeter, modelName := BLEModelName.OutdoorMeter,
          battery := some 5, humidity := 44, celsius := 19 } sampleState).Battery.StatusLowBattery
        = LowBattery.low)
    ∧ ((Motion.BLEparseStatus { hide_lightsensor := false, set_minLux := none, set_maxLux := none }
        { model := BLEModel.MotionSensor, modelName := BLEModelName.MotionSensor,
          movement := true, lightLevel := "bright", battery := some 45 }
        { MotionDetected := false, LightSensor := some 1,
          Battery := { BatteryLevel := 100, StatusLowBattery := LowBattery.normal } }).Battery.StatusLowBattery
        ≠ LowBattery.low)
    ∧ (IOSensor.BLEparseStatus sampleDevice
        { model := BLEModel.OutdoorMeter, modelName := BLEModelName.OutdoorMeter,
          battery := none, humidity := 44, celsius := 19 } sampleState).Battery
        = sampleState.Battery := by
  have h1 := (C8_battery_frame_effect sampleDevice
      { hide_lightsensor := false, set_minLux := none, set_maxLux := none }
      { model := BLEModel.OutdoorMeter, modelName := BLEModelName.OutdoorMeter,
        battery := some 5, humidity := 44, celsius := 19 }
      { model := BLEModel.MotionSensor, modelName := BLEModelName.MotionSensor,
        movement := true, lightLevel := "bright", battery := some 45 }
      sampleState
      { MotionDetected := false, LightSensor := some 1,
        Battery := { BatteryLevel := 100, StatusLowBattery := LowBattery.normal } })
  have h2 := (C8_battery_frame_effect sampleDevice
      { hide_lightsensor := false, set_minLux := none, set_maxLux := none }
      { model := BLEModel.OutdoorMeter, modelName := BLEModelName.OutdoorMeter,
        battery := none, humidity := 44, celsius := 19 }
      { model := BLEModel.MotionSensor, modelName := BLEModelName.MotionSensor,
        movement := true, lightLevel := "bright", battery := some 45 }
      sampleState
      { MotionDetected := false, LightSensor := some 1,
        Battery := { BatteryLevel := 100, StatusLowBattery := LowBattery.normal } })
  refine ⟨⟨(h1.2.1 5 rfl).1, ?_⟩, ?_, h2.1 rfl⟩
  · exact (h1.2.1 5 rfl).2.mpr (by norm_num)
  · intro hlow
    have := (h1.2.2.2 45 rfl).2.mp hlow
    norm_num at this

/-- C9: in parseStatusWebhook the hide-flag guards are inverted relative
to the BLE and OpenAPI parsers (the branch requires the hide flag to be
set AND the sensor service to exist, but the constructor only creates the
service when the flag is clear), so an inbound webhook event never
updates CurrentRelativeHumidity or CurrentTemperature: with both hide
flags clear the stored values stay at their prior readings instead of
taking the webhook's humidity 55 and temperature 21, and with both flags
set the (service-less) state is also unchanged. -/
theorem C9_webhook_hide_flag_inverted :
    IOSensor.parseStatusWebhook sampleDevice
        { scale := "CELSIUS", temperature := 21, humidity := 55 } sampleState
      = sampleState
    ∧ IOSensor.parseStatusWebhook hiddenDevice
        { scale := "CELSIUS", temperature := 21, humidity := 55 }
        (IOSensor.initState hiddenDevice none none none none)
      = IOSensor.initState hiddenDevice none none none none := by
  constructor
  · decide
  · decide

/-- C10: after getDeviceRateSettings the effective scanDuration is at
least 1, and whenever the effective deviceUpdateRate exceeds 1 the
scanDuration is at least that update rate, regardless of any smaller
configured scanDuration. -/
theorem C10_scanDuration_floor (p : PlatformConfig) (d : DeviceConfig) :
    1 ≤ (deviceBase.getDeviceRateSettings p d).scanDuration
    ∧ (1 < (deviceBase.getDeviceRateSettings p d).deviceUpdateRate →
        (deviceBase.getDeviceRateSettings p d).deviceUpdateRate
          ≤ (deviceBase.getDeviceRateSettings p d).scanDuration) := by
  unfold deviceBase.getDeviceRateSettings
  dsimp only
  constructor
  · refine le_trans ?_ (le_max_right (d.scanDuration.getD 1) _)
    split_ifs with h
    · linarith
    · exact le_rfl
  · intro h
    rw [if_pos h]
    exact le_max_right _ _

/-- C10 (witness): a device configured with scanDuration 1 but update
rate 7 ends with scanDuration at least 7 (and at least 1). -/
theorem C10_scanDuration_floor_witness :
    1 ≤ (deviceBase.getDeviceRateSettings samplePlatform
          { sampleDevice with scanDuration := some 1, updateRate := some 7 }).scanDuration
    ∧ (1 : ℚ) < (deviceBase.getDeviceRateSettings samplePlatform
          { sampleDevice with scanDuration := some 1, updateRate := some 7 }).deviceUpdateRate
    ∧ (deviceBase.getDeviceRateSettings samplePlatform
          { sampleDevice with scanDuration := some 1, updateRate := some 7 }).deviceUpdateRate
        ≤ (deviceBase.getDeviceRateSettings samplePlatform
          { sampleDevice with scanDuration := some 1, updateRate := some 7 }).scanDuration := by
  have h := C10_scanDuration_floor samplePlatform
    { sampleDevice with scanDuration := some 1, updateRate := some 7 }
  have hgt : (1 : ℚ) < (deviceBase.getDeviceRateSettings samplePlatform
      { sampleDevice with scanDuration := some 1, updateRate := some 7 }).deviceUpdateRate := by
    norm_num [deviceBase.getDeviceRateSettings]
  exact ⟨h.1, hgt, h.2 hgt⟩
